import Mathlib

/-!
Shallow embedding of `src/app.py` (TubeMind AI).

The program is a linear pipeline: channel lookup → playlist enumeration →
video detail fetch → narrative summary, each stage a single upstream API
call followed by dictionary reshaping.

Modelling conventions:
* A Python `dict` with string keys is an association list (`Dict α`);
  `d[k]` is an `Except`-valued lookup that fails with a `KeyError` message
  when the key is absent, and `d.get(k, v)` is a total lookup with default.
* Upstream JSON responses are structures whose fields are `Option`-valued
  for the keys the code accesses (a missing key raises on `[...]` access).
* Network effects are modelled by passing each call's upstream response as
  an explicit argument; where a claim is about the calls themselves, the
  issued requests are recorded in the return value.
* Engagement counters arrive from upstream as decimal strings; the model
  carries them as integers, with Python's `int(...)` coercion the parse.
-/

namespace TubeMind

/-- A Python dictionary with string keys, as an association list
(first binding wins, as in a well-formed JSON object). -/
abbrev Dict (α : Type) : Type := List (String × α)

/-- `d.get(k)`: the value stored at key `k`, if present. -/
def dget? {α : Type} (d : Dict α) (k : String) : Option α :=
  (d.find? (fun p => p.1 == k)).map (fun p => p.2)

/-- `d[k]`: Python indexing, raising `KeyError` when the key is absent. -/
def dgetE {α : Type} (d : Dict α) (k : String) : Except String α :=
  match dget? d k with
  | some v => Except.ok v
  | none => Except.error ("KeyError: " ++ k)

/-- Access to a structure field that models a possibly-missing dictionary
key: `some` is the key being present, `none` raises `KeyError`. -/
def keyE {α : Type} (x : Option α) (k : String) : Except String α :=
  match x with
  | some v => Except.ok v
  | none => Except.error ("KeyError: " ++ k)

/-- The Python `for`-loop that builds a list by appending one element per
item in order, propagating the first raised exception (the loop shape of
`get_video_ids` and `get_video_details`). -/
def mapExcept {α β : Type} (f : α → Except String β) : List α → Except String (List β)
  | [] => Except.ok []
  | a :: l =>
    match f a with
    | Except.error e => Except.error e
    | Except.ok b =>
      match mapExcept f l with
      | Except.error e => Except.error e
      | Except.ok bs => Except.ok (b :: bs)

/-! ## Secrets setup (`src/app.py` lines 8-13)

`st.secrets[...]` is read for both keys inside a `try:`; any failure is
caught and the script stops (`st.stop()`) before anything else runs. -/

/-- The external secret store; each credential may be absent. -/
structure SecretStore where
  youtubeKey? : Option String
  geminiKey? : Option String

/-- Outcome of the startup block: either the script halted via
`st.stop()`, or both credentials were bound. -/
inductive StartupResult where
  | halted : StartupResult
  | configured : String → String → StartupResult
deriving DecidableEq

/-- Lines 8-13: read `YOUTUBE_API_KEY` then `GEMINI_API_KEY`; a missing key
raises, the bare `except:` catches it and `st.stop()` halts the script. -/
def startup (s : SecretStore) : StartupResult :=
  match s.youtubeKey? with
  | none => StartupResult.halted
  | some y =>
    match s.geminiKey? with
    | none => StartupResult.halted
    | some g => StartupResult.configured y g

/-! ## Channel lookup (`get_channel_stats`, lines 19-27) -/

/-- The `snippet` block of a channel item; the handler reads
`['title']` and `['thumbnails']['medium']['url']`. -/
structure ChanSnippet where
  title? : Option String
  thumbnails? : Option (Dict (Dict String))

/-- One element of the channels-list response's `items` array. The main
handler reads `snippet`, `statistics['subscriberCount']` and
`contentDetails['relatedPlaylists']['uploads']`. -/
structure ChannelItem where
  snippet? : Option ChanSnippet
  contentDetails? : Option (Dict (Dict String))
  statistics? : Option (Dict String)

/-- The upstream `channels().list(...)` response; the code accesses only
`response['items']`. -/
structure ChannelsResponse where
  items? : Option (List ChannelItem)

/-- Lines 19-27: issue the channels-list request, then
`if response['items']: return response['items'][0]` else `return None`
(an empty list is falsy in Python). -/
def get_channel_stats (channel_id : String) (response : ChannelsResponse) :
    Except String (Option ChannelItem) :=
  match keyE response.items? "items" with
  | Except.error e => Except.error e
  | Except.ok [] => Except.ok none
  | Except.ok (c :: _) => Except.ok (some c)

/-! ## Playlist enumeration (`get_video_ids`, lines 29-39) -/

/-- One element of the playlist-items response: the code reads
`item['contentDetails']['videoId']`. -/
abbrev PlaylistItem : Type := Dict (Dict String)

/-- The upstream `playlistItems().list(...)` response; the code accesses
only `response['items']`. -/
structure PlaylistItemsResponse where
  items? : Option (List PlaylistItem)

/-- The request parameters of the single playlist-items call
(lines 31-35). -/
structure PlaylistRequest where
  part : String
  playlistId : String
  maxResults : Nat

/-- Lines 31-35: the request is built with `part="contentDetails"`,
the given playlist id, and `maxResults=10`. -/
def get_video_ids_request (playlist_id : String) : PlaylistRequest :=
  { part := "contentDetails", playlistId := playlist_id, maxResults := 10 }

/-- Lines 29-39: iterate over `response['items']` in order, appending
`item['contentDetails']['videoId']` for each. No truncation is performed
by the code itself; the only bound is the `maxResults=10` request
parameter honoured upstream. -/
def get_video_ids (playlist_id : String) (response : PlaylistItemsResponse) :
    Except String (List String) :=
  match keyE response.items? "items" with
  | Except.error e => Except.error e
  | Except.ok items =>
    mapExcept
      (fun item =>
        match dgetE item "contentDetails" with
        | Except.error e => Except.error e
        | Except.ok cd => dgetE cd "videoId")
      items

/-! ## Video detail fetch (`get_video_details`, lines 41-59) -/

/-- The `snippet` block of a video item; the code reads `['title']` and
`['thumbnails']['high']['url']`. -/
structure VSnippet where
  title? : Option String
  thumbnails? : Option (Dict (Dict String))

/-- One element of the videos-list response's `items` array; `statistics`
is a dictionary of counters (values carried as integers, the result of the
`int(...)` coercion applied by the code). Either block may be missing. -/
structure VideoItem where
  snippet? : Option VSnippet
  statistics? : Option (Dict Int)

/-- The upstream `videos().list(...)` response; the code accesses only
`response['items']`. -/
structure VideosListResponse where
  items? : Option (List VideoItem)

/-- The flat per-video record built on lines 51-57. -/
structure VideoRecord where
  Title : String
  Views : Int
  Likes : Int
  Comments : Int
  Thumbnail : String

/-- `snippet['thumbnails']['high']['url']` (line 56): two raising
dictionary accesses below the snippet's `thumbnails` key. -/
def thumb_high_url (snippet : VSnippet) : Except String String :=
  match keyE snippet.thumbnails? "thumbnails" with
  | Except.error e => Except.error e
  | Except.ok thumbs =>
    match dgetE thumbs "high" with
    | Except.error e => Except.error e
    | Except.ok hi => dgetE hi "url"

/-- Lines 48-57 (loop body): `stats = video['statistics']` and
`snippet = video['snippet']` raise on a missing block; `Title` and
`Thumbnail` raise on missing keys; the three counters use
`stats.get(field, 0)` and so default to `0` when absent. -/
def mkVideoRecord (video : VideoItem) : Except String VideoRecord :=
  match keyE video.statistics? "statistics" with
  | Except.error e => Except.error e
  | Except.ok stats =>
    match keyE video.snippet? "snippet" with
    | Except.error e => Except.error e
    | Except.ok snippet =>
      match keyE snippet.title? "title" with
      | Except.error e => Except.error e
      | Except.ok title =>
        match thumb_high_url snippet with
        | Except.error e => Except.error e
        | Except.ok url =>
          Except.ok
            { Title := title
              Views := (dget? stats "viewCount").getD 0
              Likes := (dget? stats "likeCount").getD 0
              Comments := (dget? stats "commentCount").getD 0
              Thumbnail := url }

/-- The observable behaviour of one `get_video_details` invocation: the
`id` parameter of each issued `videos().list` call, and the returned
record list (or the raised exception). -/
structure FetcherRun where
  callIdParams : List String
  result : Except String (List VideoRecord)

/-- Lines 41-59: unconditionally build the request with
`id=','.join(video_ids)` and execute it (exactly one network call, with
no guard for an empty input list), then reshape `response['items']` in
response order. -/
def get_video_details (video_ids : List String) (response : VideosListResponse) :
    FetcherRun :=
  { callIdParams := [String.intercalate "," video_ids]
    result :=
      match keyE response.items? "items" with
      | Except.error e => Except.error e
      | Except.ok items => mapExcept mkVideoRecord items }

/-! ## Narrative summary (`analyze_with_gemini`, lines 61-75) -/

/-- `df[['Title', 'Views', 'Likes']].head(5)` (line 63): project the three
columns, then keep the first 5 rows in existing order. -/
def summaryRows (df : List VideoRecord) : List (String × Int × Int) :=
  (df.map (fun r => (r.Title, r.Views, r.Likes))).take 5

/-- One printed row of the pandas table: index, then the three column
values (column alignment whitespace is abstracted to single spaces). -/
def rowLine (idx : Nat) (row : String × Int × Int) : String :=
  toString idx ++ " " ++ row.1 ++ " " ++ toString row.2.1 ++ " " ++ toString row.2.2

/-- `.to_string()` of the projected frame: a header line followed by one
line per selected record, in order. -/
def data_summary (df : List VideoRecord) : String :=
  String.intercalate "\n" ("Title Views Likes" :: (summaryRows df).enum.map (fun p => rowLine p.1 p.2))

/-- The f-string text before the embedded `data_summary` (lines 65-67). -/
def analyze_prompt_head : String :=
  "\n    You are a viral content consultant. \n    Analyze these video stats:\n    "

/-- The f-string text after the embedded `data_summary` (lines 69-73). -/
def analyze_prompt_tail : String :=
  "\n    \n    1. Identify the highest performing video.\n    2. Suggest 3 follow-up video titles that would go viral based on this style.\n    3. Keep it short and exciting.\n    "

/-- Line 65-73: the prompt handed to the generative model. -/
def analyze_prompt (df : List VideoRecord) : String :=
  analyze_prompt_head ++ data_summary df ++ analyze_prompt_tail

/-- One summarizer invocation: the prompt it sent and the raw
`response.text` it received from the model (an input to the embedding);
line 75 returns that text unmodified. -/
structure GeminiCall where
  prompt : String
  text : String

/-- Lines 61-75: build the prompt from the frame, call the model, and
return its text unmodified. -/
def analyze_with_gemini (df : List VideoRecord) (modelText : String) : GeminiCall :=
  { prompt := analyze_prompt df, text := modelText }

/-! ## Main Area handler (lines 91-134) -/

/-- The network-bearing pipeline stages, in dependency order. -/
inductive Stage where
  | channelLookup : Stage
  | playlistEnum : Stage
  | videoFetch : Stage
  | summarize : Stage
deriving DecidableEq

/-- What the handler displays at the end of a triggered run. -/
inductive Display where
  | report : String → Display
  | channelNotFound : Display
  | genericError : String → Display
deriving DecidableEq

/-- The upstream world for one triggered run: the response each call would
receive, and the generative model's reply text. -/
structure Env where
  channelsResponse : ChannelsResponse
  playlistResponse : PlaylistItemsResponse
  videosResponse : VideosListResponse
  geminiText : String

/-- One run of the handler: which stages issued their upstream call, in
order, and what was displayed. -/
structure RunResult where
  stages : List Stage
  display : Display

/-- Lines 102-107: the channel-header accesses
(`['snippet']['thumbnails']['medium']['url']`, `['snippet']['title']`,
`['statistics']['subscriberCount']`,
`['contentDetails']['relatedPlaylists']['uploads']`), in source order,
each raising on a missing key. Returns the uploads-playlist id. -/
def header_fields (c : ChannelItem) : Except String String :=
  match keyE c.snippet? "snippet" with
  | Except.error e => Except.error e
  | Except.ok sn =>
    match keyE sn.thumbnails? "thumbnails" with
    | Except.error e => Except.error e
    | Except.ok thumbs =>
      match dgetE thumbs "medium" with
      | Except.error e => Except.error e
      | Except.ok med =>
        match dgetE med "url" with
        | Except.error e => Except.error e
        | Except.ok _ =>
          match keyE sn.title? "title" with
          | Except.error e => Except.error e
          | Except.ok _ =>
            match keyE c.statistics? "statistics" with
            | Except.error e => Except.error e
            | Except.ok stats =>
              match dgetE stats "subscriberCount" with
              | Except.error e => Except.error e
              | Except.ok _ =>
                match keyE c.contentDetails? "contentDetails" with
                | Except.error e => Except.error e
                | Except.ok cd =>
                  match dgetE cd "relatedPlaylists" with
                  | Except.error e => Except.error e
                  | Except.ok rp => dgetE rp "uploads"

/-- Lines 91-134: the `try:` body of the triggered handler. Channel lookup
runs first; on `None` the handler shows "Channel not found" and stops; on
a channel record it reads the header fields, enumerates the uploads
playlist, fetches the video details, and summarizes; any raised exception
reaches the outer `except` and is shown as a generic error. (The two
chart widgets between fetch and summary are display glue, out of the
modelled scope.) -/
def run_pipeline (channel_id : String) (env : Env) : RunResult :=
  match get_channel_stats channel_id env.channelsResponse with
  | Except.error e => { stages := [Stage.channelLookup], display := Display.genericError e }
  | Except.ok none => { stages := [Stage.channelLookup], display := Display.channelNotFound }
  | Except.ok (some channel_info) =>
    match header_fields channel_info with
    | Except.error e => { stages := [Stage.channelLookup], display := Display.genericError e }
    | Except.ok uploads_id =>
      match get_video_ids uploads_id env.playlistResponse with
      | Except.error e =>
        { stages := [Stage.channelLookup, Stage.playlistEnum], display := Display.genericError e }
      | Except.ok video_ids =>
        match (get_video_details video_ids env.videosResponse).result with
        | Except.error e =>
          { stages := [Stage.channelLookup, Stage.playlistEnum, Stage.videoFetch]
            display := Display.genericError e }
        | Except.ok records =>
          { stages := [Stage.channelLookup, Stage.playlistEnum, Stage.videoFetch, Stage.summarize]
            display := Display.report (analyze_with_gemini records env.geminiText).text }

/-- The whole script: the startup block runs before anything else; when it
halts (`st.stop()`), no handler run — and hence no upstream request —
ever happens. -/
def app_run (s : SecretStore) (channel_id : String) (env : Env) : Option RunResult :=
  match startup s with
  | StartupResult.halted => none
  | StartupResult.configured _ _ => some (run_pipeline channel_id env)

/-! ## Concrete fixtures used by witness theorems -/

/-- A statistics block with `commentCount` disabled (absent). -/
def statsEx : Dict Int := [("viewCount", 7), ("likeCount", 3)]

/-- A thumbnails mapping with a well-formed `high` entry. -/
def thumbsEx : Dict (Dict String) := [("high", [("url", "U")])]

/-- A fully-populated video snippet. -/
def snEx : VSnippet := { title? := some "T", thumbnails? := some thumbsEx }

/-- A video item with both blocks present and `commentCount` absent. -/
def vEx : VideoItem := { snippet? := some snEx, statistics? := some statsEx }

/-- The record `mkVideoRecord` builds from `vEx`. -/
def recEx : VideoRecord :=
  { Title := "T", Views := 7, Likes := 3, Comments := 0, Thumbnail := "U" }

/-- A batch response with zero items. -/
def emptyVideosResponse : VideosListResponse := { items? := some [] }

/-- A batch response whose sole item is `vEx`. -/
def respOne : VideosListResponse := { items? := some [vEx] }

/-- A video item lacking the whole `statistics` block. -/
def vNoStats : VideoItem := { snippet? := some snEx, statistics? := none }

/-- A batch response whose sole item lacks its `statistics` block. -/
def respNoStats : VideosListResponse := { items? := some [vNoStats] }

/-- A snippet whose thumbnails mapping has no `high` entry. -/
def snNoHigh : VSnippet := { title? := some "T", thumbnails? := some [] }

/-- A video item whose thumbnails mapping has no `high` entry. -/
def vNoHigh : VideoItem := { snippet? := some snNoHigh, statistics? := some statsEx }

/-- A playlist item carrying video id `"v" ++ toString i`. -/
def pitem (i : Nat) : PlaylistItem :=
  [("contentDetails", [("videoId", "v" ++ toString i)])]

/-- A playlist-items response carrying 11 items: more than the page size
the request asks for, to probe the absence of truncation in the code. -/
def resp11 : PlaylistItemsResponse := { items? := some ((List.range 11).map pitem) }

/-- A playlist-items response carrying 2 items. -/
def resp2 : PlaylistItemsResponse := { items? := some [pitem 0, pitem 1] }

/-- An upstream world whose channels-list response has `items == []`. -/
def envNotFound : Env :=
  { channelsResponse := { items? := some [] }
    playlistResponse := { items? := some [] }
    videosResponse := { items? := some [] }
    geminiText := "ok" }

/-- An upstream world whose channels-list response lacks the `items` key. -/
def envNoItemsKey : Env :=
  { channelsResponse := { items? := none }
    playlistResponse := { items? := some [] }
    videosResponse := { items? := some [] }
    geminiText := "ok" }

/-- A secret store with the Gemini credential absent. -/
def secretsNoGemini : SecretStore := { youtubeKey? := some "yk", geminiKey? := none }

/-! ## Helper lemmas about the loop shape -/

theorem mapExcept_ok_length {α β : Type} (f : α → Except String β) (l : List α) (out : List β)
    (h : mapExcept f l = Except.ok out) : out.length = l.length := by
  induction l generalizing out with
  | nil =>
    simp only [mapExcept, Except.ok.injEq] at h
    simp [← h]
  | cons a l ih =>
    simp only [mapExcept] at h
    cases hfa : f a with
    | error e => rw [hfa] at h; exact absurd h (by simp)
    | ok b =>
      rw [hfa] at h
      cases hml : mapExcept f l with
      | error e => rw [hml] at h; exact absurd h (by simp)
      | ok bs =>
        rw [hml] at h
        simp only [Except.ok.injEq] at h
        simp [← h, ih bs hml]

theorem mapExcept_ok_get {α β : Type} (f : α → Except String β) (l : List α) (out : List β)
    (h : mapExcept f l = Except.ok out) (i : Nat) (h1 : i < l.length) (h2 : i < out.length) :
    f (l.get ⟨i, h1⟩) = Except.ok (out.get ⟨i, h2⟩) := by
  induction l generalizing out i with
  | nil => exact absurd h1 (by simp)
  | cons a l ih =>
    simp only [mapExcept] at h
    cases hfa : f a with
    | error e => rw [hfa] at h; exact absurd h (by simp)
    | ok b =>
      rw [hfa] at h
      cases hml : mapExcept f l with
      | error e => rw [hml] at h; exact absurd h (by simp)
      | ok bs =>
        rw [hml] at h
        simp only [Except.ok.injEq] at h
        subst h
        cases i with
        | zero => simpa using hfa
        | succ j =>
          exact ih bs hml j (Nat.lt_of_succ_lt_succ h1) (Nat.lt_of_succ_lt_succ h2)

theorem mapExcept_error_of_mem {α β : Type} (f : α → Except String β) (l : List α) (x : α)
    (e : String) (hx : x ∈ l) (hf : f x = Except.error e) :
    ∃ e2, mapExcept f l = Except.error e2 := by
  induction l with
  | nil => cases hx
  | cons a l ih =>
    rcases List.mem_cons.mp hx with h | h
    · subst h
      exact ⟨e, by simp [mapExcept, hf]⟩
    · cases hfa : f a with
      | error e3 => exact ⟨e3, by simp [mapExcept, hfa]⟩
      | ok b =>
        obtain ⟨e2, h2⟩ := ih h
        exact ⟨e2, by simp [mapExcept, hfa, h2]⟩

/-! ## Claims -/

/-- C1: on an empty input id list, `get_video_details` still issues its
single batch call — with `id` equal to the empty string — contrary to the
spec's requirement that no network call be made; only afterwards does it
reshape the response, returning an empty record set when the response's
`items` array is empty. -/
theorem fetch_empty_input_issues_call (resp : VideosListResponse) :
    (get_video_details [] resp).callIdParams = [""]
    ∧ (resp.items? = some [] → (get_video_details [] resp).result = Except.ok []) := by
  refine ⟨rfl, fun h => ?_⟩
  simp [get_video_details, keyE, h, mapExcept]

/-- Witness for C1 at the concrete empty-items response. -/
theorem fetch_empty_input_issues_call_witness :
    (get_video_details [] emptyVideosResponse).callIdParams = [""]
    ∧ (get_video_details [] emptyVideosResponse).result = Except.ok [] := by
  have h := fetch_empty_input_issues_call emptyVideosResponse
  exact ⟨h.1, h.2 rfl⟩

/-- C2: for a video item whose `statistics` block is present and whose
snippet resolves a title and a high-resolution thumbnail URL, the record
is produced without error; each engagement counter that is absent from
the statistics block resolves to `0` (never negative), each one present
is carried over, and the title and thumbnail are populated normally. -/
theorem absent_counters_default_zero (stats : Dict Int) (sn : VSnippet) (title url : String)
    (ht : sn.title? = some title) (hu : thumb_high_url sn = Except.ok url) :
    ∃ r : VideoRecord,
      mkVideoRecord { snippet? := some sn, statistics? := some stats } = Except.ok r
      ∧ r.Title = title
      ∧ r.Thumbnail = url
      ∧ (∀ n : Int, dget? stats "viewCount" = some n → r.Views = n)
      ∧ (∀ n : Int, dget? stats "likeCount" = some n → r.Likes = n)
      ∧ (∀ n : Int, dget? stats "commentCount" = some n → r.Comments = n)
      ∧ (dget? stats "viewCount" = none → r.Views = 0 ∧ 0 ≤ r.Views)
      ∧ (dget? stats "likeCount" = none → r.Likes = 0 ∧ 0 ≤ r.Likes)
      ∧ (dget? stats "commentCount" = none → r.Comments = 0 ∧ 0 ≤ r.Comments) := by
  refine ⟨{ Title := title
            Views := (dget? stats "viewCount").getD 0
            Likes := (dget? stats "likeCount").getD 0
            Comments := (dget? stats "commentCount").getD 0
            Thumbnail := url }, ?_, rfl, rfl, ?_, ?_, ?_, ?_, ?_, ?_⟩
  · simp [mkVideoRecord, keyE, ht, hu]
  · intro n hn; simp [hn]
  · intro n hn; simp [hn]
  · intro n hn; simp [hn]
  · intro hn; simp [hn]
  · intro hn; simp [hn]
  · intro hn; simp [hn]

/-- Witness for C2 at the concrete item `vEx`, whose `commentCount` is
absent while `viewCount` and `likeCount` are present. -/
theorem absent_counters_default_zero_witness :
    ∃ r : VideoRecord,
      mkVideoRecord { snippet? := some snEx, statistics? := some statsEx } = Except.ok r
      ∧ r.Title = "T" ∧ r.Views = 7 ∧ r.Comments = 0 ∧ 0 ≤ r.Comments := by
  obtain ⟨r, hok, hT, _, hv, _, _, _, _, hc⟩ :=
    absent_counters_default_zero statsEx snEx "T" "U" rfl rfl
  exact ⟨r, hok, hT, hv 7 rfl, (hc rfl).1, (hc rfl).2⟩

/-- C3: when the channels-list response carries an empty `items` array,
`get_channel_stats` returns the `None` sentinel, the handler displays
"Channel not found", and only the channel-lookup stage ever issues its
call — no playlist enumeration, video fetch, or summarization runs; when
`items` is non-empty, the first channel record is returned. -/
theorem channel_sentinel_halts_pipeline (channel_id : String) (env : Env) :
    (env.channelsResponse.items? = some [] →
      get_channel_stats channel_id env.channelsResponse = Except.ok none
      ∧ (run_pipeline channel_id env).stages = [Stage.channelLookup]
      ∧ (run_pipeline channel_id env).display = Display.channelNotFound)
    ∧ ∀ (c : ChannelItem) (cs : List ChannelItem),
        env.channelsResponse.items? = some (c :: cs) →
        get_channel_stats channel_id env.channelsResponse = Except.ok (some c) := by
  constructor
  · intro h
    have hg : get_channel_stats channel_id env.channelsResponse = Except.ok none := by
      simp [get_channel_stats, keyE, h]
    exact ⟨hg, by simp [run_pipeline, hg], by simp [run_pipeline, hg]⟩
  · intro c cs h
    simp [get_channel_stats, keyE, h]

/-- Witness for C3 at the concrete empty-items world `envNotFound`. -/
theorem channel_sentinel_halts_pipeline_witness :
    get_channel_stats "UC" envNotFound.channelsResponse = Except.ok none
    ∧ (run_pipeline "UC" envNotFound).stages = [Stage.channelLookup]
    ∧ (run_pipeline "UC" envNotFound).display = Display.channelNotFound :=
  (channel_sentinel_halts_pipeline "UC" envNotFound).1 rfl

/-- C4: the summarizer's prompt is exactly the fixed template around the
serialized table; the serialized rows are precisely the first 5 records
of the supplied set in their existing order (all of them when fewer than
5), projected to title, views and likes only — no re-sorting. -/
theorem prompt_embeds_first_five (df : List VideoRecord) :
    analyze_prompt df = analyze_prompt_head ++ data_summary df ++ analyze_prompt_tail
    ∧ summaryRows df = (df.take 5).map (fun r => (r.Title, r.Views, r.Likes))
    ∧ (summaryRows df).length = min 5 df.length := by
  refine ⟨rfl, ?_, ?_⟩
  · simp [summaryRows, List.map_take]
  · simp [summaryRows]

/-- C5 counterexample: the code performs no truncation of its own — on a
playlist-items response carrying 11 items, `get_video_ids` returns 11
identifiers, so the claim's "regardless of how many items the response
contains" is false; the bound comes only from the `maxResults=10` request
parameter honoured upstream. -/
theorem playlist_cap_counterexample :
    get_video_ids "PL" resp11 =
      Except.ok ((List.range 11).map (fun i => "v" ++ toString i))
    ∧ 10 < ((List.range 11).map (fun i => "v" ++ toString i)).length :=
  ⟨rfl, by decide⟩

/-- C5 (amended): `get_video_ids` returns exactly one identifier per item
of the upstream response, and its request fixes `maxResults=10`, so the
result has at most 10 identifiers whenever the upstream response honours
that page size. -/
theorem playlist_bounded_when_response_bounded (playlist_id : String)
    (resp : PlaylistItemsResponse) (items : List PlaylistItem) (out : List String)
    (hi : resp.items? = some items) (hn : items.length ≤ 10)
    (hout : get_video_ids playlist_id resp = Except.ok out) :
    out.length = items.length ∧ out.length ≤ 10
    ∧ (get_video_ids_request playlist_id).maxResults = 10 := by
  have hm : mapExcept
      (fun item =>
        match dgetE item "contentDetails" with
        | Except.error e => Except.error e
        | Except.ok cd => dgetE cd "videoId") items = Except.ok out := by
    simpa [get_video_ids, keyE, hi] using hout
  have hlen := mapExcept_ok_length _ items out hm
  exact ⟨hlen, hlen ▸ hn, rfl⟩

/-- Witness for C5's amended claim at a concrete 2-item response. -/
theorem playlist_bounded_when_response_bounded_witness :
    ∃ out, get_video_ids "PL" resp2 = Except.ok out ∧ out.length ≤ 10 := by
  have h := playlist_bounded_when_response_bounded "PL" resp2 [pitem 0, pitem 1]
    ["v0", "v1"] rfl (by decide) rfl
  exact ⟨["v0", "v1"], rfl, h.2.1⟩

/-- C6: when `get_video_details` succeeds, it yields one record per item
of the upstream batch response, in exactly the response's order
(record `i` is built from item `i`), and the output does not depend on
the input identifier list at all — so response order wins whenever the
two orders differ. -/
theorem fetch_order_matches_response (ids : List String) (resp : VideosListResponse)
    (items : List VideoItem) (records : List VideoRecord)
    (hi : resp.items? = some items)
    (hr : (get_video_details ids resp).result = Except.ok records) :
    records.length = items.length
    ∧ (∀ (i : Nat) (h1 : i < items.length) (h2 : i < records.length),
        mkVideoRecord (items.get ⟨i, h1⟩) = Except.ok (records.get ⟨i, h2⟩))
    ∧ ∀ ids2 : List String, (get_video_details ids2 resp).result = Except.ok records := by
  have hm : mapExcept mkVideoRecord items = Except.ok records := by
    simpa [get_video_details, keyE, hi] using hr
  exact ⟨mapExcept_ok_length _ _ _ hm,
    fun i h1 h2 => mapExcept_ok_get _ _ _ hm i h1 h2,
    fun ids2 => by simp [get_video_details, keyE, hi, hm]⟩

/-- Witness for C6 at a concrete one-item response. -/
theorem fetch_order_matches_response_witness :
    mkVideoRecord vEx = Except.ok recEx
    ∧ (get_video_details ["x"] respOne).result = Except.ok [recEx] := by
  have h := fetch_order_matches_response [] respOne [vEx] [recEx] rfl rfl
  exact ⟨h.2.1 0 (by decide) (by decide), h.2.2 ["x"]⟩

/-- C7: a batch-response item lacking its whole `statistics` block or its
whole `snippet` block makes `mkVideoRecord` raise, and the presence of
such an item anywhere in the response makes the whole
`get_video_details` call raise instead of producing a defaulted or
partial record. -/
theorem missing_block_is_fatal (v : VideoItem)
    (h : v.statistics? = none ∨ v.snippet? = none) :
    (∃ e, mkVideoRecord v = Except.error e)
    ∧ ∀ (ids : List String) (resp : VideosListResponse) (items : List VideoItem),
        resp.items? = some items → v ∈ items →
        ∃ e2, (get_video_details ids resp).result = Except.error e2 := by
  have herr : ∃ e, mkVideoRecord v = Except.error e := by
    rcases h with h | h
    · exact ⟨"KeyError: " ++ "statistics", by simp [mkVideoRecord, keyE, h]⟩
    · cases hst : v.statistics? with
      | none => exact ⟨"KeyError: " ++ "statistics", by simp [mkVideoRecord, keyE, hst]⟩
      | some stats => exact ⟨"KeyError: " ++ "snippet", by simp [mkVideoRecord, keyE, hst, h]⟩
  refine ⟨herr, fun ids resp items hi hv => ?_⟩
  obtain ⟨e, he⟩ := herr
  obtain ⟨e2, h2⟩ := mapExcept_error_of_mem mkVideoRecord items v e hv he
  exact ⟨e2, by simp [get_video_details, keyE, hi, h2]⟩

/-- Witness for C7 at a concrete item lacking its `statistics` block. -/
theorem missing_block_is_fatal_witness :
    (∃ e, mkVideoRecord vNoStats = Except.error e)
    ∧ ∃ e2, (get_video_details [] respNoStats).result = Except.error e2 := by
  have h := missing_block_is_fatal vNoStats (Or.inl rfl)
  exact ⟨h.1, h.2 [] respNoStats [vNoStats] rfl (by simp)⟩

/-- C8: if either credential is absent from the secret store, the startup
block halts the script, so no handler run — and hence no upstream
request — ever happens. -/
theorem missing_credentials_halt (s : SecretStore) (channel_id : String) (env : Env)
    (h : s.youtubeKey? = none ∨ s.geminiKey? = none) :
    startup s = StartupResult.halted ∧ app_run s channel_id env = none := by
  have hs : startup s = StartupResult.halted := by
    rcases h with h | h
    · simp [startup, h]
    · cases hy : s.youtubeKey? <;> simp [startup, hy, h]
  exact ⟨hs, by simp [app_run, hs]⟩

/-- Witness for C8 at a store with the Gemini credential absent. -/
theorem missing_credentials_halt_witness :
    startup secretsNoGemini = StartupResult.halted
    ∧ app_run secretsNoGemini "UC" envNotFound = none :=
  missing_credentials_halt secretsNoGemini "UC" envNotFound (Or.inr rfl)

/-- C9: `get_channel_stats` returns the `None` sentinel exactly when the
response has an `items` key bound to an empty array; when the `items` key
is absent entirely it raises a `KeyError` instead, which surfaces as the
handler's generic error display, not as "Channel not found". -/
theorem sentinel_only_for_present_empty_items (channel_id : String) (env : Env) :
    (get_channel_stats channel_id env.channelsResponse = Except.ok none ↔
      env.channelsResponse.items? = some [])
    ∧ (env.channelsResponse.items? = none →
        ∃ e, get_channel_stats channel_id env.channelsResponse = Except.error e
          ∧ (run_pipeline channel_id env).display = Display.genericError e) := by
  constructor
  · cases hi : env.channelsResponse.items? with
    | none => simp [get_channel_stats, keyE, hi]
    | some l => cases l <;> simp [get_channel_stats, keyE, hi]
  · intro h
    have hg : get_channel_stats channel_id env.channelsResponse =
        Except.error ("KeyError: " ++ "items") := by
      simp [get_channel_stats, keyE, h]
    exact ⟨"KeyError: " ++ "items", hg, by simp [run_pipeline, hg]⟩

/-- Witness for C9 at the concrete world whose channels-list response
lacks the `items` key. -/
theorem sentinel_only_for_present_empty_items_witness :
    ∃ e, get_channel_stats "UC" envNoItemsKey.channelsResponse = Except.error e
      ∧ (run_pipeline "UC" envNoItemsKey).display = Display.genericError e :=
  (sentinel_only_for_present_empty_items "UC" envNoItemsKey).2 rfl

/-- C10: for a batch-response item whose blocks are otherwise present, a
thumbnails mapping without a `high` entry — or whose `high` entry lacks
a `url` — makes `mkVideoRecord` raise a `KeyError`: the thumbnail URL has
no default, unlike the engagement counters. -/
theorem missing_high_thumbnail_raises (v : VideoItem) (sn : VSnippet)
    (stats : Dict Int) (thumbs : Dict (Dict String)) (title : String)
    (hsn : v.snippet? = some sn) (hst : v.statistics? = some stats)
    (htitle : sn.title? = some title) (hth : sn.thumbnails? = some thumbs)
    (h : dget? thumbs "high" = none
      ∨ ∃ hd, dget? thumbs "high" = some hd ∧ dget? hd "url" = none) :
    ∃ e, mkVideoRecord v = Except.error e := by
  rcases h with h | ⟨hd, h1, h2⟩
  · exact ⟨"KeyError: " ++ "high",
      by simp [mkVideoRecord, keyE, hsn, hst, htitle, thumb_high_url, hth, dgetE, h]⟩
  · exact ⟨"KeyError: " ++ "url",
      by simp [mkVideoRecord, keyE, hsn, hst, htitle, thumb_high_url, hth, dgetE, h1, h2]⟩

/-- Witness for C10 at a concrete item whose thumbnails mapping has no
`high` entry. -/
theorem missing_high_thumbnail_raises_witness :
    ∃ e, mkVideoRecord vNoHigh = Except.error e :=
  missing_high_thumbnail_raises vNoHigh snNoHigh statsEx [] "T" rfl rfl rfl rfl (Or.inl rfl)

end TubeMind
